import Mathlib

/-!
Shallow embedding of the OpenAI-compatible proxy server (`proxy_server.py`):
configuration loading, the auth gate, model routing, request translation,
the chat/text completion endpoints with their error classification, and the
streaming relay generator. Python strings are modelled as Lean `String`s and
their operations (`startswith`, slicing, `in`) as operations on the
underlying character lists, matching Python's code-point semantics.
-/

namespace AiProxy

/-- Python `s.startswith(pre)` on code points. -/
def pyStartsWith (s pre : String) : Bool :=
  pre.data.isPrefixOf s.data

/-- `sub` occurs as a contiguous sublist of `l`. -/
def listContains (sub : List Char) : List Char → Bool
  | [] => sub.isEmpty
  | c :: cs => sub.isPrefixOf (c :: cs) || listContains sub cs

/-- Python `sub in s` (substring containment) on code points. -/
def pyContains (s sub : String) : Bool :=
  listContains sub.data s.data

/-- Python `s[n:]` (slice from index `n`). -/
def pyDrop (s : String) (n : Nat) : String :=
  String.mk (s.data.drop n)

/-- Python `s.lower()` restricted to ASCII-style per-character lowering. -/
def pyLower (s : String) : String :=
  String.mk (s.data.map Char.toLower)

/-- Python truthiness of an optional string (`None` and `""` are falsy). -/
def pyTruthy : Option String → Bool
  | none => false
  | some s => s ≠ ""

/-- `fastapi.HTTPException`: a transport status code and a detail message. -/
structure HTTPException where
  status_code : Nat
  detail : String
deriving DecidableEq, Repr

/-- Modelled from starlette: `str(HTTPException(...))` is "status: detail". -/
def httpExceptionStr (e : HTTPException) : String :=
  toString e.status_code ++ ": " ++ e.detail

/-- `OpenAIConfig` (pydantic model). -/
structure OpenAIConfig where
  api_key : Option String
  base_url : String
  organization : Option String
deriving DecidableEq, Repr

/-- `AzureOpenAIConfig` (pydantic model). -/
structure AzureOpenAIConfig where
  api_key : Option String
  api_version : String
  azure_endpoint : Option String
  azure_deployment : Option String
  use_azure_identity : Bool
deriving DecidableEq, Repr

/-- `ProxyConfig` (pydantic model) with its field defaults. -/
structure ProxyConfig where
  openai : Option OpenAIConfig := none
  azure_openai : Option AzureOpenAIConfig := none
  master_key : String := "sk-1234"
  port : Nat := 4000
  host : String := "0.0.0.0"
deriving DecidableEq, Repr

/-- `load_config`: build the `ProxyConfig` from the process environment,
modelled as a partial map from variable names to values. `int(...)` on the
port is modelled as `String.toNat?` with fallback 0 (the port is unused by
the properties below). -/
def load_config (env : String → Option String) : ProxyConfig :=
  let use_azure_ad :=
    (env "AZURE_AD_TOKEN").isSome ||
      pyLower ((env "USE_AZURE_IDENTITY").getD "false") = "true"
  { openai :=
      if pyTruthy (env "OPENAI_API_KEY") then
        some { api_key := env "OPENAI_API_KEY"
               base_url := (env "OPENAI_BASE_URL").getD "https://api.openai.com/v1"
               organization := env "OPENAI_ORGANIZATION" }
      else none
    azure_openai :=
      if (pyTruthy (env "AZURE_OPENAI_API_KEY") || use_azure_ad) &&
          pyTruthy (env "AZURE_ENDPOINT") then
        some { api_key := env "AZURE_OPENAI_API_KEY"
               api_version := (env "AZURE_API_VERSION").getD "2024-02-15-preview"
               azure_endpoint := env "AZURE_ENDPOINT"
               azure_deployment := env "AZURE_DEPLOYMENT"
               use_azure_identity := use_azure_ad }
      else none
    master_key := (env "MASTER_KEY").getD "sk-1234"
    port := (((env "PORT").getD "4000").toNat?).getD 0
    host := (env "HOST").getD "0.0.0.0" }

/-- The two backend clients the registry can hold. -/
inductive Provider where
  | openai
  | azure
deriving DecidableEq, Repr

/-- The global client registry: which of `openai_client` / `azure_client`
are initialized (non-`None`). -/
structure Registry where
  openai_client : Bool
  azure_client : Bool
deriving DecidableEq, Repr

/-- `initialize_clients`: a client is created exactly when its config
section is present. -/
def initialize_clients (cfg : ProxyConfig) : Registry :=
  { openai_client := cfg.openai.isSome
    azure_client := cfg.azure_openai.isSome }

/-- `authenticate_request`: validate the `Authorization` header against the
configured master key. The header is `none` when absent. -/
def authenticate_request (master_key : String) (auth_header : Option String) :
    Except HTTPException Unit :=
  match auth_header with
  | none => .error ⟨401, "Missing Authorization header"⟩
  | some h =>
      if h = "" ∨ pyStartsWith h "Bearer " = false then
        .error ⟨401, "Missing Authorization header"⟩
      else if pyDrop h 7 ≠ master_key then
        .error ⟨401, "Invalid API key"⟩
      else
        .ok ()

/-- The `HTTPException(400, ...)` raised by `get_client` when no provider is
configured. -/
def noProviderError : HTTPException :=
  ⟨400, "No configured AI providers"⟩

/-- `get_client`: route a model name to a client, or raise when no provider
is configured. -/
def get_client (reg : Registry) (model : String) : Except HTTPException Provider :=
  if pyStartsWith model "gpt-" && reg.openai_client then
    .ok .openai
  else if (pyStartsWith model "azure-" || pyContains model "gpt") && reg.azure_client then
    .ok .azure
  else if reg.azure_client then
    .ok .azure
  else if reg.openai_client then
    .ok .openai
  else
    .error noProviderError

/-- Provider selection as the spec's §4.2 words it, first match wins:
direct provider when it is registered and the model carries the direct
naming prefix; gateway provider when it is registered and the model carries
the gateway prefix or the generic family substring; then the gateway as
default; then the direct provider as fallback; else the no-provider
sentinel. Written from the spec, to be compared with `get_client`. -/
def select_provider_spec (reg : Registry) (model : String) : Option Provider :=
  if reg.openai_client && pyStartsWith model "gpt-" then
    some .openai
  else if reg.azure_client && (pyStartsWith model "azure-" || pyContains model "gpt") then
    some .azure
  else if reg.azure_client then
    some .azure
  else if reg.openai_client then
    some .openai
  else
    none

/-- `ChatMessage` (pydantic model). -/
structure ChatMessage where
  role : String
  content : String
  name : Option String := none
deriving DecidableEq, Repr

/-- `ChatCompletionRequest` (pydantic model) with its defaults; the pydantic
schema places no lower bound on the length of `messages`. `stream=None` is
identified with `false`, matching its truthiness in the handler. -/
structure ChatCompletionRequest where
  model : String
  messages : List ChatMessage
  temperature : Option Rat := some (7/10)
  max_tokens : Option Nat := none
  stream : Bool := false
deriving DecidableEq, Repr

/-- `CompletionRequest` (pydantic model) with its defaults. -/
structure CompletionRequest where
  model : String
  prompt : String
  temperature : Option Rat := some (7/10)
  max_tokens : Option Nat := none
deriving DecidableEq, Repr

/-- One message dict `{"role": msg.role, "content": msg.content}` as built
by the chat handler's list comprehension. -/
structure ProviderMessage where
  role : String
  content : String
deriving DecidableEq, Repr

/-- The keyword arguments of the `client.chat.completions.create(...)` call. -/
structure ProviderChatCall where
  model : String
  messages : List ProviderMessage
  temperature : Option Rat
  max_tokens : Option Nat
  stream : Bool
deriving DecidableEq, Repr

/-- The keyword arguments of the `client.completions.create(...)` call. -/
structure ProviderCompletionCall where
  model : String
  prompt : String
  temperature : Option Rat
  max_tokens : Option Nat
deriving DecidableEq, Repr

/-- The argument build of `client.chat.completions.create` inside
`chat_completion`: the request translator for the chat endpoint. -/
def translate_chat (req : ChatCompletionRequest) : ProviderChatCall :=
  { model := req.model
    messages := req.messages.map fun m => { role := m.role, content := m.content }
    temperature := req.temperature
    max_tokens := req.max_tokens
    stream := req.stream }

/-- The argument build of `client.completions.create` inside `completion`. -/
def translate_completion (req : CompletionRequest) : ProviderCompletionCall :=
  { model := req.model
    prompt := req.prompt
    temperature := req.temperature
    max_tokens := req.max_tokens }

/-- The exceptions an upstream call can raise, with the message `str(e)`
yields. `apiError` carries the optional `status_code` attribute
(`none` when the attribute is absent or `None`). -/
inductive PyError where
  | rateLimitError (msg : String)
  | authenticationError (msg : String)
  | apiError (msg : String) (status_code : Option Nat)
  | otherError (msg : String)
deriving DecidableEq, Repr

/-- Python `str(e)` for the modelled exceptions. -/
def pyStr : PyError → String
  | .rateLimitError m => m
  | .authenticationError m => m
  | .apiError m _ => m
  | .otherError m => m

/-- The shared `except` chain of both completion endpoints: classify an
upstream exception into the `HTTPException` re-raised for it. For `APIError`
the code computes `getattr(e, "status_code", 502) or 502`. -/
def classify_upstream (e : PyError) : HTTPException :=
  match e with
  | .rateLimitError _ => ⟨429, "Upstream rate limit exceeded"⟩
  | .authenticationError _ => ⟨401, "Upstream authentication failed"⟩
  | .apiError m code =>
      let status := match code with
        | none => 502
        | some c => if c = 0 then 502 else c
      ⟨status, m⟩
  | .otherError m => ⟨500, m⟩

/-- Minimal model of `json.dumps` string escaping (backslash and
double-quote, the escapes exercised here). -/
def jsonEscapeList : List Char → List Char
  | [] => []
  | c :: cs =>
      (if c = '\\' then ['\\', '\\']
       else if c = '"' then ['\\', '"']
       else [c]) ++ jsonEscapeList cs

/-- `json.dumps` of a string value. -/
def jsonDumpsStr (s : String) : String :=
  String.mk ('"' :: jsonEscapeList s.data ++ ['"'])

/-- `json.dumps({'error': str(e)})` as built in the streaming error path. -/
def jsonDumpsError (msg : String) : String :=
  "\x7b\"error\": " ++ jsonDumpsStr msg ++ "\x7d"

/-- Modelled from FastAPI: an `HTTPException` is rendered to the caller as a
JSON body with a single `detail` field. -/
def renderErrorBody (e : HTTPException) : String :=
  "\x7b\"detail\": " ++ jsonDumpsStr e.detail ++ "\x7d"

/-- One SSE frame `data: <payload>\n\n`. -/
def frameOf (payload : String) : String :=
  "data: " ++ payload ++ "\n\n"

/-- The terminal frame `data: [DONE]\n\n`. -/
def doneFrame : String :=
  frameOf "[DONE]"

/-- The in-band error frame `data: {"error": str(e)}\n\n` yielded when the
stream iteration raises. -/
def errorFrame (e : PyError) : String :=
  frameOf (jsonDumpsError (pyStr e))

/-- The `generate` async generator of the streaming path: yield one frame
per chunk (each chunk given as its `model_dump_json()` serialization); on
natural exhaustion yield the `[DONE]` frame, and if iteration raises, yield
the single in-band error frame instead. -/
def generate : List String → Option PyError → List String
  | [], none => [doneFrame]
  | [], some e => [errorFrame e]
  | c :: cs, tail => frameOf c :: generate cs tail

/-- The behavior of the upstream `create(...)` call on the non-streaming
chat path: either the response object (as its `model_dump()` serialization)
or a raised exception. -/
abbrev NonStreamUpstream := Except PyError String

/-- The behavior of the upstream `create(...)` call on the streaming path:
either a raised exception at dispatch, or the chunk sequence the stream
yields followed by natural exhaustion (`none`) or a mid-iteration
exception (`some e`). -/
abbrev StreamUpstream := Except PyError (List String × Option PyError)

/-- A response leaving an endpoint handler: a JSON body, an SSE streaming
response, or an `HTTPException` propagated to the framework. -/
inductive EndpointResponse where
  | json (status : Nat) (body : String)
  | eventStream (status : Nat) (media_type : String) (frames : List String)
  | httpError (e : HTTPException)
deriving DecidableEq, Repr

/-- The `request.stream` falsy path of the `chat_completion` handler body
(routing, the upstream call, the `except` chain). The second component
records the upstream calls made. Note the `try` block encloses
`get_client`, so the `HTTPException(400)` it raises is caught by the
trailing `except Exception` and re-raised as a 500 whose detail is
`str(e)`. -/
def chat_completion_nonstream (reg : Registry) (req : ChatCompletionRequest)
    (upstream : NonStreamUpstream) : EndpointResponse × List ProviderChatCall :=
  match get_client reg req.model with
  | .error he => (.httpError ⟨500, httpExceptionStr he⟩, [])
  | .ok _ =>
      match upstream with
      | .error e => (.httpError (classify_upstream e), [translate_chat req])
      | .ok body => (.json 200 body, [translate_chat req])

/-- The `request.stream` truthy path of the `chat_completion` handler body:
on successful dispatch the handler returns a `StreamingResponse` (status
200, `text/event-stream`) whose body is produced by `generate`; a dispatch
failure goes through the `except` chain (with the same `get_client`
wrapping as the non-streaming path). -/
def chat_completion_stream (reg : Registry) (req : ChatCompletionRequest)
    (upstream : StreamUpstream) : EndpointResponse × List ProviderChatCall :=
  match get_client reg req.model with
  | .error he => (.httpError ⟨500, httpExceptionStr he⟩, [])
  | .ok _ =>
      match upstream with
      | .error e => (.httpError (classify_upstream e), [translate_chat req])
      | .ok (chunks, tail) =>
          (.eventStream 200 "text/event-stream" (generate chunks tail),
           [translate_chat req])

/-- The `completion` handler body (text completion endpoint). -/
def completion (reg : Registry) (req : CompletionRequest)
    (upstream : NonStreamUpstream) : EndpointResponse × List ProviderCompletionCall :=
  match get_client reg req.model with
  | .error he => (.httpError ⟨500, httpExceptionStr he⟩, [])
  | .ok _ =>
      match upstream with
      | .error e => (.httpError (classify_upstream e), [translate_completion req])
      | .ok body => (.json 200 body, [translate_completion req])

/-- The routes the app registers. -/
inductive Endpoint where
  | healthReadiness
  | root
  | models
  | chatCompletions
  | completions
deriving DecidableEq, Repr

/-- Which routes declare `Depends(authenticate_request)`. -/
def requiresAuth : Endpoint → Bool
  | .healthReadiness => false
  | .root => false
  | .models => true
  | .chatCompletions => true
  | .completions => true

/-! ## Helper lemmas -/

theorem isPrefixOf_iff (l₁ l₂ : List Char) :
    l₁.isPrefixOf l₂ = true ↔ ∃ t, l₂ = l₁ ++ t := by
  induction l₁ generalizing l₂ with
  | nil =>
      simp [List.isPrefixOf]
  | cons a as ih =>
      cases l₂ with
      | nil => simp [List.isPrefixOf]
      | cons b bs =>
          simp only [List.isPrefixOf, Bool.and_eq_true, beq_iff_eq, ih,
            List.cons_append, List.cons.injEq]
          constructor
          · rintro ⟨rfl, t, rfl⟩
            exact ⟨t, rfl, rfl⟩
          · rintro ⟨t, rfl, rfl⟩
            exact ⟨rfl, t, rfl⟩

theorem pyStartsWith_iff (s pre : String) :
    pyStartsWith s pre = true ↔ ∃ t, s.data = pre.data ++ t :=
  isPrefixOf_iff pre.data s.data

theorem generate_success (chunks : List String) :
    generate chunks none = chunks.map frameOf ++ [doneFrame] := by
  induction chunks with
  | nil => rfl
  | cons c cs ih => simp [generate, ih]

theorem generate_error (chunks : List String) (e : PyError) :
    generate chunks (some e) = chunks.map frameOf ++ [errorFrame e] := by
  induction chunks with
  | nil => rfl
  | cons c cs ih => simp [generate, ih]

theorem pyDrop_bearer (mk : String) : pyDrop ("Bearer " ++ mk) 7 = mk := by
  apply String.ext
  show ("Bearer " ++ mk).data.drop 7 = mk.data
  rw [String.data_append]
  exact List.drop_left' rfl

theorem auth_ok_some_iff (mk s : String) :
    authenticate_request mk (some s) = .ok () ↔ s = "Bearer " ++ mk := by
  constructor
  · intro hok
    simp only [authenticate_request] at hok
    by_cases h1 : s = "" ∨ pyStartsWith s "Bearer " = false
    · rw [if_pos h1] at hok
      cases hok
    · rw [if_neg h1] at hok
      by_cases h2 : pyDrop s 7 ≠ mk
      · rw [if_pos h2] at hok
        cases hok
      · push_neg at h1 h2
        obtain ⟨-, hpre0⟩ := h1
        have hpre : pyStartsWith s "Bearer " = true := by
          cases hb : pyStartsWith s "Bearer " with
          | false => exact absurd hb hpre0
          | true => rfl
        obtain ⟨t, ht⟩ := (pyStartsWith_iff s "Bearer ").1 hpre
        have ht7 : s.data.drop 7 = t := by
          rw [ht]
          exact List.drop_left' rfl
        have hmk : String.mk t = mk := by
          rw [← h2]
          unfold pyDrop
          rw [ht7]
        have hmkd : mk.data = t := by rw [← hmk]
        apply String.ext
        rw [ht, String.data_append, hmkd]
  · intro hs
    subst hs
    have hpre : pyStartsWith ("Bearer " ++ mk) "Bearer " = true := by
      rw [pyStartsWith_iff]
      exact ⟨mk.data, String.data_append _ _⟩
    have hdrop : pyDrop ("Bearer " ++ mk) 7 = mk := pyDrop_bearer mk
    have hA : ¬("Bearer " ++ mk = "" ∨ pyStartsWith ("Bearer " ++ mk) "Bearer " = false) := by
      rintro (hc | hc)
      · rw [hc] at hpre
        exact absurd hpre (by decide)
      · rw [hpre] at hc
        cases hc
    have hB : ¬(pyDrop ("Bearer " ++ mk) 7 ≠ mk) := fun hc => hc hdrop
    simp only [authenticate_request]
    rw [if_neg hA, if_neg hB]

theorem auth_ok_iff (mk : String) (h : Option String) :
    authenticate_request mk h = .ok () ↔ h = some ("Bearer " ++ mk) := by
  cases h with
  | none => simp [authenticate_request]
  | some s => simpa using auth_ok_some_iff mk s

theorem azure_not_gpt (m : String) (h : pyStartsWith m "azure-" = true) :
    pyStartsWith m "gpt-" = false := by
  obtain ⟨t, ht⟩ := (pyStartsWith_iff m "azure-").1 h
  unfold pyStartsWith
  rw [ht]
  rfl

theorem get_client_eq_spec (reg : Registry) (m : String) :
    get_client reg m =
      match select_provider_spec reg m with
      | some p => Except.ok p
      | none => Except.error noProviderError := by
  obtain ⟨b1, b2⟩ := reg
  unfold get_client select_provider_spec
  cases h1 : pyStartsWith m "gpt-" <;> cases h2 : pyStartsWith m "azure-" <;>
    cases h3 : pyContains m "gpt" <;> cases b1 <;> cases b2 <;> simp

/-! ## Claim theorems -/

/-- Claim C1: for a successful streaming chat completion (stream flag true,
routing and dispatch succeed, every chunk produced without error), the
emitted body is exactly one `data: <json>\n\n` frame per upstream chunk in
arrival order, then exactly one `data: [DONE]\n\n` frame and nothing else,
served as a 200 `text/event-stream` response, with the upstream called once
on the translated request. -/
theorem streaming_success_frames (reg : Registry) (req : ChatCompletionRequest)
    (p : Provider) (chunks : List String)
    (hs : req.stream = true) (hp : get_client reg req.model = .ok p) :
    chat_completion_stream reg req (.ok (chunks, none)) =
      (.eventStream 200 "text/event-stream" (chunks.map frameOf ++ [doneFrame]),
       [translate_chat req]) := by
  unfold chat_completion_stream
  rw [hp]
  simp only [generate_success]

/-- Witness for C1 at a concrete registry, request and chunk sequence. -/
theorem streaming_success_frames_witness :
    chat_completion_stream ⟨true, false⟩
        ⟨"gpt-4o", [⟨"user", "hi", none⟩], none, none, true⟩
        (.ok (["c1", "c2"], none)) =
      (.eventStream 200 "text/event-stream"
        (["c1", "c2"].map frameOf ++ [doneFrame]),
       [translate_chat ⟨"gpt-4o", [⟨"user", "hi", none⟩], none, none, true⟩]) :=
  streaming_success_frames ⟨true, false⟩
    ⟨"gpt-4o", [⟨"user", "hi", none⟩], none, none, true⟩
    .openai ["c1", "c2"] rfl rfl

/-- Claim C7: when the stream iteration raises after headers are committed,
the relay emits exactly one in-band error frame after the already-forwarded
chunks and closes the stream; the transport status and media type of the
committed `StreamingResponse` are unchanged. -/
theorem midstream_error_inband (reg : Registry) (req : ChatCompletionRequest)
    (p : Provider) (chunks : List String) (e : PyError)
    (hs : req.stream = true) (hp : get_client reg req.model = .ok p) :
    chat_completion_stream reg req (.ok (chunks, some e)) =
      (.eventStream 200 "text/event-stream" (chunks.map frameOf ++ [errorFrame e]),
       [translate_chat req]) := by
  unfold chat_completion_stream
  rw [hp]
  simp only [generate_error]

/-- Witness for C7: a failure after two chunks yields the two chunk frames,
one error frame, and no terminal frame. -/
theorem midstream_error_inband_witness :
    chat_completion_stream ⟨true, false⟩
        ⟨"gpt-4o", [⟨"user", "hi", none⟩], none, none, true⟩
        (.ok (["c1", "c2"], some (.otherError "connection reset"))) =
      (.eventStream 200 "text/event-stream"
        (["c1", "c2"].map frameOf ++ [errorFrame (.otherError "connection reset")]),
       [translate_chat ⟨"gpt-4o", [⟨"user", "hi", none⟩], none, none, true⟩]) :=
  midstream_error_inband ⟨true, false⟩
    ⟨"gpt-4o", [⟨"user", "hi", none⟩], none, none, true⟩
    .openai ["c1", "c2"] (.otherError "connection reset") rfl rfl

/-- Claim C2: provider selection is a total function of the model string and
registry state, equal to the spec's five-step first-match-wins policy
(`select_provider_spec`, written from the spec's words), and a registered
provider is selected for every model carrying its naming prefix regardless
of what else is registered. -/
theorem routing_first_match_policy (reg : Registry) (m : String) :
    (get_client reg m =
      match select_provider_spec reg m with
      | some p => Except.ok p
      | none => Except.error noProviderError)
  ∧ (reg.openai_client = true → pyStartsWith m "gpt-" = true →
      get_client reg m = .ok .openai)
  ∧ (reg.azure_client = true → pyStartsWith m "azure-" = true →
      get_client reg m = .ok .azure) := by
  refine ⟨get_client_eq_spec reg m, ?_, ?_⟩
  · intro hreg hm
    unfold get_client
    rw [hm, hreg]
    rfl
  · intro hreg hm
    unfold get_client
    rw [hm, hreg, azure_not_gpt m hm]
    obtain ⟨b1, b2⟩ := reg
    cases b1 <;> rfl

/-- Claim C3: upstream failures on the chat and text completion endpoints
are classified first-match-wins: rate limit to 429, upstream auth failure
to 401, a structured API error to its own positive status code or 502 when
none is present, and anything else to 500. -/
theorem upstream_error_classification (reg : Registry)
    (req : ChatCompletionRequest) (creq : CompletionRequest) (e : PyError)
    (p q : Provider)
    (hc : get_client reg req.model = .ok p)
    (ht : get_client reg creq.model = .ok q) :
    ((chat_completion_nonstream reg req (.error e)).1 =
      .httpError (classify_upstream e))
  ∧ ((completion reg creq (.error e)).1 = .httpError (classify_upstream e))
  ∧ (∀ m, classify_upstream (.rateLimitError m) =
      ⟨429, "Upstream rate limit exceeded"⟩)
  ∧ (∀ m, classify_upstream (.authenticationError m) =
      ⟨401, "Upstream authentication failed"⟩)
  ∧ (∀ m c, 0 < c → (classify_upstream (.apiError m (some c))).status_code = c)
  ∧ (∀ m, (classify_upstream (.apiError m none)).status_code = 502)
  ∧ (∀ m, (classify_upstream (.otherError m)).status_code = 500) := by
  refine ⟨?_, ?_, fun m => rfl, fun m => rfl, ?_, fun m => rfl, fun m => rfl⟩
  · unfold chat_completion_nonstream
    rw [hc]
  · unfold completion
    rw [ht]
  · intro m c hcpos
    unfold classify_upstream
    have : ¬(c = 0) := Nat.pos_iff_ne_zero.1 hcpos
    simp [this]

/-- Witness for C3 at a concrete registry, requests, and an API error with
an explicit status code. -/
theorem upstream_error_classification_witness :
    ((chat_completion_nonstream ⟨true, false⟩
        ⟨"gpt-4o", [⟨"user", "hi", none⟩], none, none, false⟩
        (.error (.apiError "quota" (some 418)))).1 =
      .httpError (classify_upstream (.apiError "quota" (some 418)))) :=
  (upstream_error_classification ⟨true, false⟩
    ⟨"gpt-4o", [⟨"user", "hi", none⟩], none, none, false⟩
    ⟨"gpt-4o", "hi", none, none⟩ (.apiError "quota" (some 418))
    .openai .openai rfl rfl).1

/-- Claim C4 (code bug): the pydantic schema places no non-empty bound on
`messages`, so a chat request with an empty message list is not rejected
with 400; the handler forwards the empty list upstream and returns the
upstream outcome (here a 200), making exactly one upstream call whose
message payload is empty. -/
theorem empty_messages_forwarded_upstream :
    chat_completion_nonstream ⟨true, false⟩
        ⟨"gpt-4o", [], none, none, false⟩ (.ok "body") =
      (.json 200 "body", [⟨"gpt-4o", [], none, none, false⟩])
  ∧ (translate_chat ⟨"gpt-4o", [], none, none, false⟩).messages = [] :=
  ⟨rfl, rfl⟩

/-- Claim C5 (code bug): with zero providers registered, routing does raise
the 400 no-provider error, but the handler's blanket `except Exception`
catches that `HTTPException` and re-raises it as a 500 whose detail is the
stringified exception; the caller sees 500, not 400, on both endpoints (and
no upstream call is made). An empty environment yields the empty registry. -/
theorem no_provider_rewrapped_as_500 :
    get_client ⟨false, false⟩ "gpt-4o" = .error noProviderError
  ∧ noProviderError = ⟨400, "No configured AI providers"⟩
  ∧ chat_completion_nonstream ⟨false, false⟩
      ⟨"gpt-4o", [⟨"user", "hi", none⟩], none, none, false⟩ (.ok "unused") =
      (.httpError ⟨500, "400: No configured AI providers"⟩, [])
  ∧ completion ⟨false, false⟩ ⟨"gpt-4o", "hi", none, none⟩ (.ok "unused") =
      (.httpError ⟨500, "400: No configured AI providers"⟩, [])
  ∧ initialize_clients (load_config fun _ => none) = ⟨false, false⟩ := by
  refine ⟨rfl, rfl, ?_, ?_, rfl⟩
  · decide
  · decide

/-- Claim C6 counterexample: two chat requests that differ only in a
message's optional name field produce identical provider calls, so the
name field is not preserved by the translation. -/
theorem translate_chat_drops_name :
    (⟨"gpt-4o", [⟨"user", "hi", some "alice"⟩], none, none, false⟩ :
        ChatCompletionRequest) ≠
      (⟨"gpt-4o", [⟨"user", "hi", none⟩], none, none, false⟩ :
        ChatCompletionRequest)
  ∧ translate_chat ⟨"gpt-4o", [⟨"user", "hi", some "alice"⟩], none, none, false⟩ =
      translate_chat ⟨"gpt-4o", [⟨"user", "hi", none⟩], none, none, false⟩ :=
  ⟨by decide, rfl⟩

/-- Claim C6 (amended): the call made to the provider preserves the model,
the message order with each message's role and content, the temperature,
the optional max-tokens value (unset stays unset), and the stream flag,
unchanged; the optional name field is dropped from every message. Both
handler paths call the provider on exactly this translation. -/
theorem translate_chat_preserves_rest (req : ChatCompletionRequest) :
    (translate_chat req).model = req.model
  ∧ (translate_chat req).messages.length = req.messages.length
  ∧ (∀ i : Nat, (translate_chat req).messages[i]? =
      (req.messages[i]?).map fun m => ({ role := m.role, content := m.content } : ProviderMessage))
  ∧ (translate_chat req).temperature = req.temperature
  ∧ (translate_chat req).max_tokens = req.max_tokens
  ∧ ((translate_chat req).max_tokens = none ↔ req.max_tokens = none)
  ∧ (translate_chat req).stream = req.stream
  ∧ (∀ reg p upstream, get_client reg req.model = .ok p →
      (chat_completion_nonstream reg req upstream).2 = [translate_chat req])
  ∧ (∀ reg p upstream, get_client reg req.model = .ok p →
      (chat_completion_stream reg req upstream).2 = [translate_chat req]) := by
  refine ⟨rfl, ?_, ?_, rfl, rfl, Iff.rfl, rfl, ?_, ?_⟩
  · simp [translate_chat]
  · intro i
    simp [translate_chat]
  · intro reg p upstream h
    unfold chat_completion_nonstream
    rw [h]
    cases upstream <;> rfl
  · intro reg p upstream h
    unfold chat_completion_stream
    rw [h]
    cases upstream with
    | error e => rfl
    | ok s =>
        obtain ⟨cs, t⟩ := s
        rfl

/-- Claim C8: the auth gate accepts exactly the header value
`Bearer <master key>` (case-sensitive scheme, single space, exact token);
every rejection carries transport status 401; and every registered route
except health and root requires the gate. -/
theorem auth_gate_exact_bearer (mk : String) (h : Option String) :
    (authenticate_request mk h = .ok () ↔ h = some ("Bearer " ++ mk))
  ∧ (∀ e, authenticate_request mk h = .error e → e.status_code = 401)
  ∧ requiresAuth .models = true
  ∧ requiresAuth .chatCompletions = true
  ∧ requiresAuth .completions = true
  ∧ requiresAuth .healthReadiness = false
  ∧ requiresAuth .root = false := by
  refine ⟨auth_ok_iff mk h, ?_, rfl, rfl, rfl, rfl, rfl⟩
  intro e he
  cases h with
  | none =>
      simp only [authenticate_request] at he
      injection he with h1
      rw [← h1]
  | some s =>
      simp only [authenticate_request] at he
      split_ifs at he
      all_goals
        first
        | exact Except.noConfusion he
        | · injection he with h1
            rw [← h1]

/-- Claim C9 counterexample: a generic exception's own text is exposed
verbatim as the 500 response's detail field, and hence appears inside the
rendered error body. -/
theorem internal_error_exposes_exception_text :
    (chat_completion_nonstream ⟨true, false⟩
        ⟨"gpt-4o", [⟨"user", "hi", none⟩], none, none, false⟩
        (.error (.otherError "ZeroDivisionError: division by zero"))).1 =
      .httpError ⟨500, "ZeroDivisionError: division by zero"⟩
  ∧ pyContains (renderErrorBody ⟨500, "ZeroDivisionError: division by zero"⟩)
      "division by zero" = true :=
  ⟨rfl, by decide⟩

/-- Claim C9 (amended): every error response is a structured JSON object
with a single detail field (the in-band stream error frame a JSON object
with a single error field); the rate-limit and upstream-auth
classifications carry fixed messages, while the API-error and catch-all
classifications and the stream error frame expose the exception's own
message text, with nothing beyond that text (no stack trace) included. -/
theorem error_responses_structured (e : PyError) :
    renderErrorBody (classify_upstream e) =
      "\x7b\"detail\": " ++ jsonDumpsStr (classify_upstream e).detail ++ "\x7d"
  ∧ (∀ m, (classify_upstream (.rateLimitError m)).detail =
      "Upstream rate limit exceeded")
  ∧ (∀ m, (classify_upstream (.authenticationError m)).detail =
      "Upstream authentication failed")
  ∧ (∀ m c, (classify_upstream (.apiError m c)).detail = m)
  ∧ (∀ m, (classify_upstream (.otherError m)).detail = m)
  ∧ errorFrame e = "data: " ++ jsonDumpsError (pyStr e) ++ "\n\n" :=
  ⟨rfl, fun _ => rfl, fun _ => rfl, fun _ _ => rfl, fun _ => rfl, rfl⟩

/-- Claim C10: when MASTER_KEY is unset in the environment, the master
credential defaults to "sk-1234", so the auth gate accepts exactly the
header `Bearer sk-1234`. -/
theorem default_master_key (env : String → Option String)
    (h : env "MASTER_KEY" = none) :
    (load_config env).master_key = "sk-1234"
  ∧ ∀ hdr, (authenticate_request (load_config env).master_key hdr = .ok () ↔
      hdr = some "Bearer sk-1234") := by
  have hmk : (load_config env).master_key = "sk-1234" := by
    simp [load_config, h]
  refine ⟨hmk, fun hdr => ?_⟩
  rw [hmk]
  have hb : ("Bearer " ++ "sk-1234" : String) = "Bearer sk-1234" := by decide
  rw [← hb]
  exact auth_ok_iff "sk-1234" hdr

/-- Witness for C10 at the empty environment. -/
theorem default_master_key_witness :
    (load_config fun _ => none).master_key = "sk-1234"
  ∧ ∀ hdr, (authenticate_request (load_config fun _ => none).master_key hdr =
      .ok () ↔ hdr = some "Bearer sk-1234") :=
  default_master_key (fun _ => none) rfl

end AiProxy
